import Mathlib

/-
Verification of the kernel_guard crate (src/kernel_guard/src/lib.rs):
RAII critical-section guards that disable local IRQs (or nothing, for the
no-op variant) on construction and restore the prior state on destruction.

The machine state visible to the guards is embedded as `Sys`; every call to
an external primitive (the Platform Primitive Provider in `mod arch`, or the
preemption hook `KernelGuardIf`) is recorded as an `Event`, so that claims
about the number and order of primitive calls can be stated as equalities
of event traces.
-/

/-- One call to an external primitive or hook, with its argument/result. -/
inductive Event where
  | saveDisable (ret : Nat)
  | restoreIrq (arg : Nat)
  | disablePreempt
  | enablePreempt
deriving DecidableEq

/-- The observable state of the current execution context: the local
interrupt-enable flag, the preemption-suppression nesting depth, and an
`other` component standing for every observable that is not a suppression
flag (used to state that the guards have no side effect besides the
suppression state). -/
structure Sys where
  irqOn : Bool
  preemptDepth : Nat
  other : Nat
deriving DecidableEq

/-- Modelled from the spec: `mod arch` (the Platform Primitive Provider) is
declared in lib.rs but its file is not under src/.  Per the spec (sections 2
and 6), `disable_and_save` / `local_irq_save_and_disable` disables local
IRQs and returns a machine word encoding the prior interrupt-enable
status. -/
def local_irq_save_and_disable (s : Sys) : Nat × Sys × List Event :=
  let w : Nat := if s.irqOn then 1 else 0
  (w, { s with irqOn := false }, [Event.saveDisable w])

/-- Modelled from the spec: the restore operation of the Platform Primitive
Provider, not under src/.  It restores the IRQ enable state from a
previously saved machine word. -/
def local_irq_restore (w : Nat) (s : Sys) : Sys × List Event :=
  ({ s with irqOn := w != 0 }, [Event.restoreIrq w])

/-- Modelled from the spec: the externally supplied Preemption Control Hook
(`KernelGuardIf::disable_preempt`), not under src/.  Disabling preemption is
modelled as raising a nesting depth. -/
def disable_preempt (s : Sys) : Sys × List Event :=
  ({ s with preemptDepth := s.preemptDepth + 1 }, [Event.disablePreempt])

/-- Modelled from the spec: the externally supplied Preemption Control Hook
(`KernelGuardIf::enable_preempt`), not under src/. -/
def enable_preempt (s : Sys) : Sys × List Event :=
  ({ s with preemptDepth := s.preemptDepth - 1 }, [Event.enablePreempt])

/-- The bare-metal `IrqSave` guard (`pub struct IrqSave(usize)`): it owns the
machine word returned by `acquire`. -/
structure IrqSave where
  word : Nat
deriving DecidableEq

/-- `impl BaseGuard for IrqSave`, `fn acquire`: calls
`arch::local_irq_save_and_disable`. -/
def IrqSave.acquire (s : Sys) : Nat × Sys × List Event :=
  local_irq_save_and_disable s

/-- `impl BaseGuard for IrqSave`, `fn release`: calls
`arch::local_irq_restore(state)`. -/
def IrqSave.release (st : Nat) (s : Sys) : Sys × List Event :=
  local_irq_restore st s

/-- `IrqSave::new`: `Self(Self::acquire())` — stores the word returned by
`acquire` inside the guard. -/
def IrqSave.new (s : Sys) : IrqSave × Sys × List Event :=
  let r := IrqSave.acquire s
  (⟨r.1⟩, r.2.1, r.2.2)

/-- `impl Drop for IrqSave`: `Self::release(self.0)`. -/
def IrqSave.drop (g : IrqSave) (s : Sys) : Sys × List Event :=
  IrqSave.release g.word s

/-- `impl Default for IrqSave`: `fn default() -> Self { Self::new() }`. -/
def IrqSave.defaultG (s : Sys) : IrqSave × Sys × List Event :=
  IrqSave.new s

/-- `pub struct NoOp`, a unit struct. -/
structure NoOp where
deriving DecidableEq

/-- `impl BaseGuard for NoOp`: `type State = ()`, `fn acquire() -> Self::State {}`.
Its associated state type is `Unit` and it touches nothing. -/
def NoOp.acquire (s : Sys) : Unit × Sys × List Event :=
  ((), s, [])

/-- `impl BaseGuard for NoOp`: `fn release(_state: Self::State) {}`. -/
def NoOp.release (_st : Unit) (s : Sys) : Sys × List Event :=
  (s, [])

/-- `NoOp::new`: `const fn new() -> Self { Self }` — no state interaction. -/
def NoOp.new : NoOp :=
  ⟨⟩

/-- `impl Drop for NoOp`: `fn drop(&mut self) {}`. -/
def NoOp.drop (_g : NoOp) (s : Sys) : Sys × List Event :=
  (s, [])

/-- The guard variants concretely present in lib.rs on a bare-metal build. -/
inductive Variant where
  | noOp
  | irqSave
deriving DecidableEq

/-- A live guard instance of either variant, holding its saved state. -/
inductive GuardInst where
  | noOp
  | irqSave (word : Nat)
deriving DecidableEq

/-- Constructing a guard of the given variant on a bare-metal build:
`NoOp::new` touches nothing; `IrqSave::new` acquires and stores the word. -/
def constructGuard : Variant → Sys → GuardInst × Sys × List Event
  | Variant.noOp, s => (GuardInst.noOp, s, [])
  | Variant.irqSave, s =>
    let r := IrqSave.new s
    (GuardInst.irqSave r.1.word, r.2.1, r.2.2)

/-- Destroying a guard instance: the variant's `Drop` impl. -/
def destroyGuard : GuardInst → Sys → Sys × List Event
  | GuardInst.noOp, s => (s, [])
  | GuardInst.irqSave w, s => IrqSave.drop ⟨w⟩ s

/-- N nested constructions followed by the N matching destructions in strict
reverse order: construct the head guard, run the rest nested inside it, then
destroy the head guard.  Returns the final state and the full event trace. -/
def nestRun : List Variant → Sys → Sys × List Event
  | [], s => (s, [])
  | v :: vs, s =>
    let c := constructGuard v s
    let inner := nestRun vs c.2.1
    let d := destroyGuard c.1 inner.1
    (d.1, c.2.2 ++ inner.2 ++ d.2)

/-- On hosted targets (`target_os` is not "none"), the `cfg_if` block in
lib.rs makes `IrqSave` a type alias of `NoOp`, so constructing any variant
constructs a `NoOp`. -/
def hostedConstructGuard : Variant → Sys → NoOp × Sys × List Event
  | Variant.noOp, s => (NoOp.new, s, [])
  | Variant.irqSave, s => (NoOp.new, s, [])

/-- Destroying a guard on a hosted build: always `NoOp`'s `Drop`. -/
def hostedDestroyGuard (g : NoOp) (s : Sys) : Sys × List Event :=
  NoOp.drop g s

/-- Modelled from the spec: the combined IRQ+preemption guard
(`NoPreemptIrqSave`; the crate docs reference the preemption-aware guards
and `KernelGuardIf`, but their code is not under src/).  Per section 4.4,
acquisition disables preemption strictly before disabling and saving IRQs. -/
def NoPreemptIrqSave.acquire (s : Sys) : Nat × Sys × List Event :=
  let p := disable_preempt s
  let r := local_irq_save_and_disable p.1
  (r.1, r.2.1, p.2 ++ r.2.2)

/-- Modelled from the spec: release of the combined guard restores IRQs
strictly before re-enabling preemption (section 4.4). -/
def NoPreemptIrqSave.release (st : Nat) (s : Sys) : Sys × List Event :=
  let r := local_irq_restore st s
  let p := enable_preempt r.1
  (p.1, r.2 ++ p.2)

/-- The combined guard owns the saved IRQ word. -/
structure NoPreemptIrqSave where
  word : Nat
deriving DecidableEq

/-- Construction of the combined guard: acquire and store the word. -/
def NoPreemptIrqSave.new (s : Sys) : NoPreemptIrqSave × Sys × List Event :=
  let r := NoPreemptIrqSave.acquire s
  (⟨r.1⟩, r.2.1, r.2.2)

/-- Destruction of the combined guard: release with the stored word. -/
def NoPreemptIrqSave.drop (g : NoPreemptIrqSave) (s : Sys) : Sys × List Event :=
  NoPreemptIrqSave.release g.word s

/-- Possible calls on the `NoOp` guard, interleaved in any order. -/
inductive NoOpCall where
  | construct
  | destroy
  | acq
  | rel
deriving DecidableEq

/-- One `NoOp` operation: each case invokes the corresponding definition
embedded from the source (`NoOp::new` is const and touches no state). -/
def noOpStep : NoOpCall → Sys → Sys × List Event
  | NoOpCall.construct, s => (s, [])
  | NoOpCall.destroy, s => NoOp.drop NoOp.new s
  | NoOpCall.acq, s => ((NoOp.acquire s).2.1, (NoOp.acquire s).2.2)
  | NoOpCall.rel, s => NoOp.release () s

/-- Running any sequence of `NoOp` operations. -/
def runNoOpCalls : List NoOpCall → Sys → Sys × List Event
  | [], s => (s, [])
  | c :: cs, s =>
    let r := noOpStep c s
    let rest := runNoOpCalls cs r.1
    (rest.1, r.2 ++ rest.2)

/-- A concrete initial state used by witnesses: IRQs disabled. -/
def sysIrqOff : Sys :=
  { irqOn := false, preemptDepth := 0, other := 0 }

/- ------------------------------------------------------------------ -/
/- Helper lemmas                                                       -/
/- ------------------------------------------------------------------ -/

/-- Constructing then immediately destroying one guard of either variant
restores the exact prior state. -/
theorem construct_destroy_id (v : Variant) (s : Sys) :
    (destroyGuard (constructGuard v s).1 (constructGuard v s).2.1).1 = s := by
  cases v with
  | noOp => rfl
  | irqSave =>
    cases s with
    | mk i p o => cases i <;> rfl

/-- Each individual `NoOp` operation leaves the state unchanged and emits no
events. -/
theorem noOpStep_id (c : NoOpCall) (s : Sys) : noOpStep c s = (s, []) := by
  cases c <;> rfl

/- ------------------------------------------------------------------ -/
/- Claim theorems                                                      -/
/- ------------------------------------------------------------------ -/

/-- C1: on a bare-metal build, `IrqSave::new` performs exactly one call to
the platform disable-and-save primitive and stores its returned word in the
guard, and `Drop` performs exactly one call to the restore primitive with
exactly that stored word; the event traces contain no other primitive
call. -/
theorem c1_irqsave_exact_calls (s s2 : Sys) (g : IrqSave) :
    (IrqSave.new s).2.2 = [Event.saveDisable (IrqSave.new s).1.word] ∧
    (IrqSave.new s).1.word = (IrqSave.acquire s).1 ∧
    (IrqSave.drop g s2).2 = [Event.restoreIrq g.word] := by
  exact ⟨rfl, rfl, rfl⟩

/-- C2: for every guard variant and every initial state, constructing a
guard and immediately destroying it restores the suppression flags (indeed
the whole observable state) to exactly their prior values. -/
theorem c2_round_trip (v : Variant) (s : Sys) :
    (destroyGuard (constructGuard v s).1 (constructGuard v s).2.1).1 = s :=
  construct_destroy_id v s

/-- C3: for every sequence of nested guard constructions (any mix of
variants) followed by the matching destructions in strict reverse order,
the final state equals the initial state. -/
theorem c3_nested_round_trip (vs : List Variant) (s : Sys) :
    (nestRun vs s).1 = s := by
  induction vs generalizing s with
  | nil => rfl
  | cons v vs ih =>
    have h1 : (nestRun vs (constructGuard v s).2.1).1 = (constructGuard v s).2.1 :=
      ih (constructGuard v s).2.1
    calc (nestRun (v :: vs) s).1
        = (destroyGuard (constructGuard v s).1
            (nestRun vs (constructGuard v s).2.1).1).1 := rfl
      _ = (destroyGuard (constructGuard v s).1 (constructGuard v s).2.1).1 := by
            rw [h1]
      _ = s := construct_destroy_id v s

/-- C4: if interrupts are already disabled before constructing an `IrqSave`
guard, they are still disabled after the guard is destroyed; destruction
restores precisely the prior enabled/disabled status (never an
unconditional re-enable). -/
theorem c4_no_unconditional_reenable (s : Sys) (h : s.irqOn = false) :
    ((IrqSave.drop (IrqSave.new s).1 (IrqSave.new s).2.1).1).irqOn = false ∧
    ((IrqSave.drop (IrqSave.new s).1 (IrqSave.new s).2.1).1).irqOn = s.irqOn := by
  cases s with
  | mk i p o =>
    cases i with
    | false => exact ⟨rfl, rfl⟩
    | true => exact absurd h (by simp)

/-- Witness for C4 at the concrete state with IRQs disabled. -/
theorem c4_no_unconditional_reenable_witness :
    sysIrqOff.irqOn = false ∧
    (((IrqSave.drop (IrqSave.new sysIrqOff).1 (IrqSave.new sysIrqOff).2.1).1).irqOn = false ∧
     ((IrqSave.drop (IrqSave.new sysIrqOff).1 (IrqSave.new sysIrqOff).2.1).1).irqOn = sysIrqOff.irqOn) :=
  ⟨rfl, c4_no_unconditional_reenable sysIrqOff rfl⟩

/-- C5: `NoOp`'s associated `State` type is the unit value, and every
sequence of `NoOp` constructions, destructions, acquires and releases, in
any order, leaves the observable state unchanged and performs no primitive
call. -/
theorem c5_noop_inert (calls : List NoOpCall) (s : Sys) :
    runNoOpCalls calls s = (s, []) ∧ (NoOp.acquire s).1 = () := by
  refine ⟨?_, rfl⟩
  induction calls generalizing s with
  | nil => rfl
  | cons c cs ih =>
    calc runNoOpCalls (c :: cs) s
        = ((runNoOpCalls cs (noOpStep c s).1).1,
           (noOpStep c s).2 ++ (runNoOpCalls cs (noOpStep c s).1).2) := rfl
      _ = (s, []) := by rw [noOpStep_id c s, ih s]; rfl

/-- C6: on a hosted build (`target_os` is not "none") `IrqSave` is a type
alias of `NoOp`, so constructing and destroying any guard variant changes
no flag, emits no primitive call, and is observably identical to `NoOp`. -/
theorem c6_hosted_is_noop (v : Variant) (s : Sys) :
    hostedConstructGuard v s = (NoOp.new, s, []) ∧
    hostedDestroyGuard (hostedConstructGuard v s).1 (hostedConstructGuard v s).2.1 = (s, []) ∧
    hostedConstructGuard v s = hostedConstructGuard Variant.noOp s := by
  cases v <;> exact ⟨rfl, rfl, rfl⟩

/-- C7: `acquire` and `release` of both variants are total functions (each
is a Lean `def` defined on every input state, returning no success/failure
indication), and their only side effect is on the suppression state: the
`other` component of the state is preserved by construction and
destruction of every variant. -/
theorem c7_total_only_suppression_effects (v : Variant) (g : GuardInst) (s : Sys) :
    ((constructGuard v s).2.1).other = s.other ∧
    ((destroyGuard g s).1).other = s.other := by
  constructor
  · cases v <;> rfl
  · cases g <;> rfl

/-- C9: for the combined IRQ+preemption guard, acquisition calls the
preemption-disable hook strictly before the interrupt-disabling primitive,
and release calls the interrupt-restoring primitive strictly before the
preemption-enable hook: the traces are exactly those two calls in that
order. -/
theorem c9_bracket_ordering (s s2 : Sys) (g : NoPreemptIrqSave) :
    (NoPreemptIrqSave.new s).2.2 =
      [Event.disablePreempt, Event.saveDisable (NoPreemptIrqSave.new s).1.word] ∧
    (NoPreemptIrqSave.drop g s2).2 =
      [Event.restoreIrq g.word, Event.enablePreempt] := by
  exact ⟨rfl, rfl⟩

/-- C10: on a bare-metal build `IrqSave::default()` simply delegates to
`IrqSave::new()`: from every machine state both return the same guard (same
stored word), the same resulting state and the same primitive-call trace. -/
theorem c10_default_eq_new (s : Sys) :
    IrqSave.defaultG s = IrqSave.new s :=
  rfl
